import Mathlib

/-!
Verification of the mouth-breathing-detector core pipeline.

The development shallowly embeds the two source files of the repository:

* `src/utils/geometry.js` — `calculateDistance` and `isMouthOpen`
  (the geometric classifier);
* `src/utils/sound.js` / the `BreathingDetector` component — the per-frame
  `onResults` handler with its debounce ("State Change Logic with Delay")
  and alert-cooldown ("Sound Alert Logic") blocks.

Modelling choices:

* JS numbers used by the geometry are embedded as real numbers; `Math.sqrt`
  becomes `Real.sqrt`, `Math.pow (x, 2)` becomes `x ^ 2`.
* MediaPipe landmark arrays are embedded as index-to-point maps
  `Nat → Option Point3D`; `landmarks[i]` yielding `undefined` becomes `none`,
  and a wholly absent (`!landmarks`) argument becomes `none` at the outer
  `Option` level.
* Timestamps (`Date.now()` milliseconds) and slider values are embedded as
  rationals, so the pipeline state machine is fully executable; the code's
  `(now - t) / 1000` millisecond-to-second conversions are kept verbatim.
* React's `useState` value `isMouthOpenState` is updated through
  `setIsMouthOpenState`, which takes effect only on the next invocation of the
  callback; within one frame every read of `isMouthOpenState` (both the
  debounce comparison and the alert gate) sees the value captured before this
  frame's update.  The embedding therefore computes the next committed value
  into the returned state while the fired decision reads the incoming state.
* The refs `pendingState`, `lastStateChangeTime`, `lastSoundTime` mutate
  immediately; they are fields of the state record.
-/

namespace Detector

/-- A landmark coordinate, `{x, y, z}` in the detector's normalized space. -/
structure Point3D where
  x : ℝ
  y : ℝ
  z : ℝ

/-- A MediaPipe landmark array, embedded as an index-to-point map:
`landmarks[i]` that is `undefined` in JS is `none` here. -/
def LandmarkFrame : Type := Nat → Option Point3D

/-- `calculateDistance` from `geometry.js`: Euclidean distance between two
points. -/
noncomputable def calculateDistance (p1 p2 : Point3D) : ℝ :=
  Real.sqrt ((p1.x - p2.x) ^ 2 + (p1.y - p2.y) ^ 2 + (p1.z - p2.z) ^ 2)

/-- `isMouthOpen` from `geometry.js`: resolves landmarks 13 (upper lip
bottom), 14 (lower lip top), 10 (forehead) and 152 (chin); returns `false` on
an absent frame, a missing landmark, or a zero face height, and otherwise
compares `mouthDistance / faceHeight` strictly against the threshold. -/
noncomputable def isMouthOpen (landmarks : Option LandmarkFrame) (threshold : ℝ) : Bool :=
  match landmarks with
  | none => false
  | some lm =>
    match lm 13, lm 14, lm 10, lm 152 with
    | some upperLipBottom, some lowerLipTop, some forehead, some chin =>
      let mouthDistance := calculateDistance upperLipBottom lowerLipTop
      let faceHeight := calculateDistance forehead chin
      if faceHeight = 0 then false
      else
        let ratio := mouthDistance / faceHeight
        if ratio > threshold then true else false
    | _, _, _, _ => false

/-- The mutable per-frame state of `BreathingDetector`: the `useState` value
`isMouthOpenState` and the refs `pendingState`, `lastStateChangeTime` and
`lastSoundTime` (timestamps in milliseconds). -/
structure DetectorState where
  isMouthOpenState : Bool
  pendingState : Bool
  lastStateChangeTime : ℚ
  lastSoundTime : ℚ
deriving DecidableEq

/-- The state at component mount, `t0` being `Date.now()` at mount:
`useState(false)`, `useRef(false)`, `useRef(Date.now())`, `useRef(0)`. -/
def initialState (t0 : ℚ) : DetectorState :=
  { isMouthOpenState := false
    pendingState := false
    lastStateChangeTime := t0
    lastSoundTime := 0 }

/-- The "State Change Logic with Delay" block of `onResults`:
`currentState` is the raw classification, `now` the frame timestamp in
milliseconds.  `setIsMouthOpenState` is recorded in the returned state (it is
visible from the next frame on). -/
def debounceStep (delaySeconds : ℚ) (currentState : Bool) (now : ℚ)
    (s : DetectorState) : DetectorState :=
  if currentState ≠ s.isMouthOpenState then
    if currentState = s.pendingState then
      if delaySeconds ≤ (now - s.lastStateChangeTime) / 1000 then
        { s with isMouthOpenState := currentState }
      else s
    else
      { s with pendingState := currentState, lastStateChangeTime := now }
  else
    { s with pendingState := currentState, lastStateChangeTime := now }

/-- One full pass of the frame handler given the raw classification
`currentState`: the debounce block followed by the "Sound Alert Logic" block.
The alert condition reads `isMouthOpenState` and `lastSoundTime` of the
incoming state (the closure values before this frame's update) and the
cooldown is the hard-coded 60 seconds; returns the next state and whether
`playAlertSound` was invoked. -/
def stepFrame (delaySeconds : ℚ) (soundEnabled : Bool) (currentState : Bool)
    (now : ℚ) (s : DetectorState) : DetectorState × Bool :=
  let s1 := debounceStep delaySeconds currentState now s
  let fired := s.isMouthOpenState && soundEnabled &&
    decide (60 ≤ (now - s.lastSoundTime) / 1000)
  if fired then ({ s1 with lastSoundTime := now }, true) else (s1, false)

/-- The `onResults` callback: when a face is present the raw classification is
`isMouthOpen landmarks threshold` and the frame is processed by `stepFrame`;
with no face the state is left untouched and nothing fires. -/
noncomputable def onResults (threshold : ℝ) (delaySeconds : ℚ)
    (soundEnabled : Bool) (results : Option LandmarkFrame) (now : ℚ)
    (s : DetectorState) : DetectorState × Bool :=
  match results with
  | none => (s, false)
  | some landmarks =>
      stepFrame delaySeconds soundEnabled (isMouthOpen (some landmarks) threshold) now s

/-- Iterated debounce over a list of frames (raw value, timestamp). -/
def runFrames (delaySeconds : ℚ) (s : DetectorState)
    (frames : List (Bool × ℚ)) : DetectorState :=
  frames.foldl (fun st f => debounceStep delaySeconds f.1 f.2 st) s

/-- A concrete frame whose mouth-gap-to-face-span ratio is `0.08`: lips at
distance `0.08`, forehead-to-chin span `1`. -/
noncomputable def lmOpen : LandmarkFrame := fun i =>
  if i = 13 then some ⟨0, 0, 0⟩
  else if i = 14 then some ⟨0, 0.08, 0⟩
  else if i = 10 then some ⟨0, 0, 0⟩
  else if i = 152 then some ⟨0, 1, 0⟩
  else none

/-- A concrete frame whose forehead and chin coincide. -/
noncomputable def lmDegenerate : LandmarkFrame := fun i =>
  if i = 13 then some ⟨0, 0, 0⟩
  else if i = 14 then some ⟨0, 1, 0⟩
  else if i = 10 then some ⟨2, 3, 4⟩
  else if i = 152 then some ⟨2, 3, 4⟩
  else none

/-- A concrete complete frame with mouth gap `0` and face span `1`. -/
noncomputable def lmClosed : LandmarkFrame := fun i =>
  if i = 13 then some ⟨0, 0, 0⟩
  else if i = 14 then some ⟨0, 0, 0⟩
  else if i = 10 then some ⟨0, 0, 0⟩
  else if i = 152 then some ⟨0, 1, 0⟩
  else none

/-- A frame with no landmarks at all. -/
def lmNone : LandmarkFrame := fun _ => none

/-- A frame defined only at index 0, hence agreeing with `lmNone` at the
four indices the classifier reads. -/
noncomputable def lmZero : LandmarkFrame := fun i =>
  if i = 0 then some ⟨1, 1, 1⟩ else none

/-! ## Basic facts about the debounce block -/

theorem debounceStep_agree (d : ℚ) (r : Bool) (t : ℚ) (s : DetectorState)
    (h : r = s.isMouthOpenState) :
    debounceStep d r t s =
      { s with pendingState := r, lastStateChangeTime := t } := by
  unfold debounceStep
  rw [if_neg (not_not_intro h)]

theorem debounceStep_newPending (d : ℚ) (r : Bool) (t : ℚ) (s : DetectorState)
    (h1 : r ≠ s.isMouthOpenState) (h2 : r ≠ s.pendingState) :
    debounceStep d r t s =
      { s with pendingState := r, lastStateChangeTime := t } := by
  unfold debounceStep
  rw [if_pos h1, if_neg h2]

theorem debounceStep_commit (d : ℚ) (r : Bool) (t : ℚ) (s : DetectorState)
    (h1 : r ≠ s.isMouthOpenState) (h2 : r = s.pendingState)
    (h3 : d ≤ (t - s.lastStateChangeTime) / 1000) :
    debounceStep d r t s = { s with isMouthOpenState := r } := by
  unfold debounceStep
  rw [if_pos h1, if_pos h2, if_pos h3]

theorem debounceStep_stay (d : ℚ) (r : Bool) (t : ℚ) (s : DetectorState)
    (h1 : r ≠ s.isMouthOpenState) (h2 : r = s.pendingState)
    (h3 : ¬d ≤ (t - s.lastStateChangeTime) / 1000) :
    debounceStep d r t s = s := by
  unfold debounceStep
  rw [if_pos h1, if_pos h2, if_neg h3]

theorem debounceStep_lastSound (d : ℚ) (r : Bool) (t : ℚ) (s : DetectorState) :
    (debounceStep d r t s).lastSoundTime = s.lastSoundTime := by
  unfold debounceStep
  split_ifs <;> rfl

theorem runFrames_nil (d : ℚ) (s : DetectorState) : runFrames d s [] = s := rfl

theorem runFrames_cons (d : ℚ) (s : DetectorState) (f : Bool × ℚ)
    (fs : List (Bool × ℚ)) :
    runFrames d s (f :: fs) = runFrames d (debounceStep d f.1 f.2 s) fs := rfl

theorem runFrames_append (d : ℚ) (s : DetectorState) (xs ys : List (Bool × ℚ)) :
    runFrames d s (xs ++ ys) = runFrames d (runFrames d s xs) ys := by
  simp [runFrames, List.foldl_append]

/-- A raw signal that keeps agreeing with the committed state never changes
the committed state. -/
theorem runFrames_agree (d : ℚ) (r : Bool) (ts : List ℚ) :
    ∀ s : DetectorState, s.isMouthOpenState = r →
      (runFrames d s (ts.map fun t => (r, t))).isMouthOpenState = r := by
  induction ts with
  | nil => intro s h; simpa [runFrames] using h
  | cons t ts ih =>
      intro s h
      rw [List.map_cons, runFrames_cons]
      refine ih _ ?_
      rw [debounceStep_agree d r t s h.symm]
      exact h

theorem elapsed_nonneg (a b : ℚ) : (0 : ℚ) ≤ (b - a) / 1000 ↔ a ≤ b := by
  rw [le_div_iff₀ (by norm_num : (0 : ℚ) < 1000)]
  constructor
  · intro h0
    nlinarith
  · intro hab
    nlinarith

/-! ## Claim theorems -/

/-- C1 (corrected): for the debounce machine with `delaySeconds = 0`, a raw
frame differing from the committed state flips `isMouthOpenState` on that same
frame iff the pending slot already holds that raw value and the frame is not
earlier than `lastStateChangeTime`; from a settled state
(`pendingState = isMouthOpenState`) the first differing frame leaves the
committed state unchanged and a second consecutive differing frame at a
later-or-equal time flips it. -/
theorem debounce_zero_delay_flip (s : DetectorState) (raw : Bool) (now : ℚ)
    (h : raw = !s.isMouthOpenState) :
    ((debounceStep 0 raw now s).isMouthOpenState = raw ↔
      (raw = s.pendingState ∧ s.lastStateChangeTime ≤ now)) ∧
    (s.pendingState = s.isMouthOpenState →
      (debounceStep 0 raw now s).isMouthOpenState = s.isMouthOpenState ∧
      ∀ now2, now ≤ now2 →
        (debounceStep 0 raw now2 (debounceStep 0 raw now s)).isMouthOpenState =
          raw) := by
  have hne : raw ≠ s.isMouthOpenState := by
    rw [h]; cases s.isMouthOpenState <;> simp
  by_cases hp : raw = s.pendingState
  · constructor
    · by_cases ht : s.lastStateChangeTime ≤ now
      · rw [debounceStep_commit 0 raw now s hne hp
          ((elapsed_nonneg s.lastStateChangeTime now).mpr ht)]
        simp [hp, ht]
      · rw [debounceStep_stay 0 raw now s hne hp
          (fun h0 => ht ((elapsed_nonneg s.lastStateChangeTime now).mp h0))]
        exact iff_of_false (Ne.symm hne) (by simp [ht])
    · intro hset
      exact absurd (hp.trans hset) hne
  · have hstep := debounceStep_newPending 0 raw now s hne hp
    constructor
    · rw [hstep]
      exact iff_of_false (Ne.symm hne) (by simp [hp])
    · intro _
      constructor
      · rw [hstep]
      · intro now2 hle
        rw [hstep, debounceStep_commit 0 raw now2
          { s with pendingState := raw, lastStateChangeTime := now } hne rfl
          ((elapsed_nonneg now now2).mpr hle)]

/-- C1 counterexample: from the freshly initialized state (`pendingState`
equal to the committed `false`), a single raw `true` frame with
`delaySeconds = 0` does not flip the committed state — it only stages the
pending value — contradicting the claim that any single differing frame flips
`isMouthOpenState` on that same frame for every starting state. -/
theorem debounce_zero_delay_first_frame_no_flip :
    (debounceStep 0 true 5 ⟨false, false, 0, 0⟩).isMouthOpenState = false := by
  norm_num [debounceStep]

/-- C1 witness: with the pending slot already holding the differing value and
a non-negative elapsed time, the flip does happen on that frame. -/
theorem debounce_zero_delay_flip_witness :
    (true = !(⟨false, true, 0, 0⟩ : DetectorState).isMouthOpenState) ∧
    (debounceStep 0 true 5 ⟨false, true, 0, 0⟩).isMouthOpenState = true :=
  ⟨rfl, ((debounce_zero_delay_flip ⟨false, true, 0, 0⟩ true 5 rfl).1).mpr
    ⟨rfl, by norm_num⟩⟩

/-- C3 (confirmed): during a pending episode in which the raw signal holds
steady at the value opposite to the committed state, the committed state
becomes the raw value exactly when some processed frame's elapsed time since
`lastStateChangeTime` reaches `delaySeconds` (inclusive `≥` comparison) and on
no earlier prefix; moreover a single debounce step changes the committed state
only when the raw value equals the pending value and the elapsed time since
`lastStateChangeTime` is at least `delaySeconds`. -/
theorem debounce_commit_timing (d : ℚ) (s : DetectorState) (raw : Bool)
    (hp : raw = s.pendingState) (hc : raw = !s.isMouthOpenState) :
    (∀ ts : List ℚ,
      ((runFrames d s (ts.map fun t => (raw, t))).isMouthOpenState = raw ↔
        ∃ t ∈ ts, d ≤ (t - s.lastStateChangeTime) / 1000)) ∧
    (∀ (s2 : DetectorState) (r : Bool) (t : ℚ),
      (debounceStep d r t s2).isMouthOpenState ≠ s2.isMouthOpenState →
        r = s2.pendingState ∧ (debounceStep d r t s2).isMouthOpenState = r ∧
        d ≤ (t - s2.lastStateChangeTime) / 1000) := by
  have hne : raw ≠ s.isMouthOpenState := by
    rw [hc]; cases s.isMouthOpenState <;> simp
  constructor
  · intro ts
    induction ts with
    | nil =>
        rw [List.map_nil, runFrames_nil]
        simp [Ne.symm hne]
    | cons t ts ih =>
        rw [List.map_cons, runFrames_cons]
        by_cases hcond : d ≤ (t - s.lastStateChangeTime) / 1000
        · rw [debounceStep_commit d raw t s hne hp hcond]
          exact iff_of_true (runFrames_agree d raw ts _ rfl)
            ⟨t, List.mem_cons_self t ts, hcond⟩
        · rw [debounceStep_stay d raw t s hne hp hcond, ih]
          constructor
          · rintro ⟨u, hu, hcu⟩
            exact ⟨u, List.mem_cons_of_mem t hu, hcu⟩
          · rintro ⟨u, hu, hcu⟩
            rcases List.mem_cons.mp hu with rfl | hu2
            · exact absurd hcu hcond
            · exact ⟨u, hu2, hcu⟩
  · intro s2 r t hchange
    by_cases h1 : r = s2.isMouthOpenState
    · rw [debounceStep_agree d r t s2 h1] at hchange
      exact absurd rfl hchange
    · by_cases h2 : r = s2.pendingState
      · by_cases h3 : d ≤ (t - s2.lastStateChangeTime) / 1000
        · rw [debounceStep_commit d r t s2 h1 h2 h3]
          exact ⟨h2, rfl, h3⟩
        · rw [debounceStep_stay d r t s2 h1 h2 h3] at hchange
          exact absurd rfl hchange
      · rw [debounceStep_newPending d r t s2 h1 h2] at hchange
        exact absurd rfl hchange

/-- C3 witness: with `delaySeconds = 2` and a pending episode whose timer
started at 0 ms, frames at 1000 ms and 3000 ms flip the committed state (the
second one has elapsed 3 s ≥ 2 s). -/
theorem debounce_commit_timing_witness :
    (true = (⟨false, true, 0, 0⟩ : DetectorState).pendingState ∧
      true = !(⟨false, true, 0, 0⟩ : DetectorState).isMouthOpenState) ∧
    (runFrames 2 ⟨false, true, 0, 0⟩
      ([1000, 3000].map fun t => (true, t))).isMouthOpenState = true :=
  ⟨⟨rfl, rfl⟩,
    ((debounce_commit_timing 2 ⟨false, true, 0, 0⟩ true rfl rfl).1
      [1000, 3000]).mpr ⟨3000, by simp, by norm_num⟩⟩

theorem runFrames_fix (d : ℚ) (s : DetectorState) :
    ∀ fs : List (Bool × ℚ), (∀ f ∈ fs, debounceStep d f.1 f.2 s = s) →
      runFrames d s fs = s := by
  intro fs
  induction fs with
  | nil => intro _; rfl
  | cons f fs ih =>
      intro h
      rw [runFrames_cons, h f (List.mem_cons_self f fs)]
      exact ih fun g hg => h g (List.mem_cons_of_mem f hg)

theorem runFrames_take_inv (d : ℚ) (Q : DetectorState → Prop) :
    ∀ fs : List (Bool × ℚ),
      (∀ (s2 : DetectorState) f, f ∈ fs → Q s2 → Q (debounceStep d f.1 f.2 s2)) →
      ∀ (k : ℕ) (s2 : DetectorState), Q s2 → Q (runFrames d s2 (fs.take k)) := by
  intro fs
  induction fs with
  | nil =>
      intro _ k s2 hQ
      simpa [runFrames_nil] using hQ
  | cons f fs ih =>
      intro h k s2 hQ
      cases k with
      | zero => simpa [runFrames_nil] using hQ
      | succ k =>
          rw [List.take_succ_cons, runFrames_cons]
          exact ih (fun s3 g hg => h s3 g (List.mem_cons_of_mem f hg)) k _
            (h s2 f (List.mem_cons_self f fs) hQ)

/-- C4 (confirmed): with `delaySeconds = d > 0`, if the raw signal flips away
from a settled committed state at time `u0`, keeps disagreeing only at times
whose elapsed seconds since `u0` stay below `d`, and then flips back, the
committed state is unchanged after every prefix of the whole frame sequence;
and any frame agreeing with the committed state restarts the pending timer
(`pendingState` and `lastStateChangeTime` are overwritten) rather than
accumulating time in the candidate state. -/
theorem debounce_glitch_no_flip (d : ℚ) (s : DetectorState) (u0 : ℚ)
    (us vs : List ℚ) (_hd : 0 < d)
    (hset : s.pendingState = s.isMouthOpenState)
    (hus : ∀ t ∈ us, (t - u0) / 1000 < d) :
    (∀ k : ℕ,
      (runFrames d s
        ((((u0 :: us).map fun t => (!s.isMouthOpenState, t)) ++
          (vs.map fun t => (s.isMouthOpenState, t))).take k)).isMouthOpenState =
        s.isMouthOpenState) ∧
    (∀ (s2 : DetectorState) (t : ℚ),
      (debounceStep d s2.isMouthOpenState t s2).pendingState =
        s2.isMouthOpenState ∧
      (debounceStep d s2.isMouthOpenState t s2).lastStateChangeTime = t) := by
  have hnotc : (!s.isMouthOpenState) ≠ s.isMouthOpenState := by
    cases s.isMouthOpenState <;> simp
  have hnotp : (!s.isMouthOpenState) ≠ s.pendingState := by
    rw [hset]; exact hnotc
  constructor
  · intro k
    cases k with
    | zero => rw [List.take_zero, runFrames_nil]
    | succ k =>
        rw [List.map_cons, List.cons_append, List.take_succ_cons,
          runFrames_cons]
        have hstep1 : debounceStep d (!s.isMouthOpenState, u0).1
            (!s.isMouthOpenState, u0).2 s =
            { s with pendingState := !s.isMouthOpenState,
                     lastStateChangeTime := u0 } :=
          debounceStep_newPending d (!s.isMouthOpenState) u0 s hnotc hnotp
        rw [hstep1, List.take_append_eq_append_take, runFrames_append]
        have hfix : runFrames d
            { s with pendingState := !s.isMouthOpenState,
                     lastStateChangeTime := u0 }
            ((us.map fun t => (!s.isMouthOpenState, t)).take k) =
            { s with pendingState := !s.isMouthOpenState,
                     lastStateChangeTime := u0 } := by
          apply runFrames_fix
          intro f hf
          rcases List.mem_map.mp (List.take_subset k _ hf) with ⟨t, ht, rfl⟩
          exact debounceStep_stay d (!s.isMouthOpenState) t _ hnotc rfl
            (not_le.mpr (hus t ht))
        rw [hfix]
        exact runFrames_take_inv d
          (fun st => st.isMouthOpenState = s.isMouthOpenState)
          (vs.map fun t => (s.isMouthOpenState, t))
          (fun s2 f hf hQ => by
            rcases List.mem_map.mp hf with ⟨t, ht, rfl⟩
            rw [debounceStep_agree d s.isMouthOpenState t s2 hQ.symm]
            exact hQ)
          _ _ rfl
  · intro s2 t
    rw [debounceStep_agree d s2.isMouthOpenState t s2 rfl]
    exact ⟨rfl, rfl⟩

/-- C4 witness: with `d = 2` s, a glitch episode starting at 1000 ms whose
disagreement frames at 1500 ms and 2500 ms stay under 2 s of persistence,
followed by a return frame at 3000 ms, leaves the committed state `false`. -/
theorem debounce_glitch_no_flip_witness :
    ((0 : ℚ) < 2 ∧
      (⟨false, false, 0, 0⟩ : DetectorState).pendingState =
        (⟨false, false, 0, 0⟩ : DetectorState).isMouthOpenState ∧
      ∀ t ∈ [(1500 : ℚ), 2500], (t - 1000) / 1000 < 2) ∧
    (runFrames 2 ⟨false, false, 0, 0⟩
      (((((1000 : ℚ) :: [1500, 2500]).map fun t => (true, t)) ++
        ([(3000 : ℚ)].map fun t => (false, t))).take 4)).isMouthOpenState =
      false :=
  ⟨⟨by norm_num, rfl, by norm_num⟩,
    (debounce_glitch_no_flip 2 ⟨false, false, 0, 0⟩ 1000 [1500, 2500] [3000]
      (by norm_num) rfl (by norm_num)).1 4⟩

/-! ## Facts about the alert ("Sound Alert Logic") block -/

theorem stepFrame_fired (d : ℚ) (en r : Bool) (now : ℚ) (s : DetectorState) :
    (stepFrame d en r now s).2 =
      (s.isMouthOpenState && en &&
        decide (60 ≤ (now - s.lastSoundTime) / 1000)) := by
  unfold stepFrame
  cases hb : s.isMouthOpenState && en &&
      decide (60 ≤ (now - s.lastSoundTime) / 1000) <;>
    simp [hb]

theorem stepFrame_fire (d : ℚ) (en r : Bool) (now : ℚ) (s : DetectorState)
    (h : (s.isMouthOpenState && en &&
      decide (60 ≤ (now - s.lastSoundTime) / 1000)) = true) :
    stepFrame d en r now s =
      ({ debounceStep d r now s with lastSoundTime := now }, true) := by
  unfold stepFrame
  simp [h]

theorem stepFrame_nofire (d : ℚ) (en r : Bool) (now : ℚ) (s : DetectorState)
    (h : (s.isMouthOpenState && en &&
      decide (60 ≤ (now - s.lastSoundTime) / 1000)) = false) :
    stepFrame d en r now s = (debounceStep d r now s, false) := by
  unfold stepFrame
  simp [h]

/-- C5 (corrected): `lastSoundTime` is initialized to `0`, not to a none
value; a frame fires iff the pre-update committed state is true, sound is
enabled and `(now - lastSoundTime) / 1000 ≥ 60` (the cooldown is the
hard-coded 60 s); hence from a never-fired state the first qualifying frame
fires iff `now ≥ 60000` ms — not regardless of the value of `now`. -/
theorem alert_gate_condition (d : ℚ) (en raw : Bool) (now : ℚ)
    (s : DetectorState) (t0 : ℚ) :
    ((stepFrame d en raw now s).2 = true ↔
      (s.isMouthOpenState = true ∧ en = true ∧
        60 ≤ (now - s.lastSoundTime) / 1000)) ∧
    (initialState t0).lastSoundTime = 0 ∧
    (s.lastSoundTime = 0 →
      ((stepFrame d en raw now s).2 = true ↔
        (s.isMouthOpenState = true ∧ en = true ∧ 60000 ≤ now))) := by
  have hfire : (stepFrame d en raw now s).2 = true ↔
      (s.isMouthOpenState = true ∧ en = true ∧
        60 ≤ (now - s.lastSoundTime) / 1000) := by
    rw [stepFrame_fired]
    simp [and_assoc]
  refine ⟨hfire, rfl, fun h0 => ?_⟩
  rw [hfire, h0, sub_zero]
  have hms : (60 : ℚ) ≤ now / 1000 ↔ 60000 ≤ now := by
    rw [le_div_iff₀ (by norm_num : (0 : ℚ) < 1000)]
    norm_num
  rw [hms]

/-- C5 counterexample: a qualifying frame (committed state true, alerts
enabled) at `now = 5000` ms against the initial `lastSoundTime = 0` does not
fire — the code compares against the `0` sentinel rather than treating a
never-fired state as passing, so the claim "fires regardless of the value of
now" fails. -/
theorem alert_gate_initial_no_fire :
    (stepFrame 0 true true 5000 ⟨true, true, 0, 0⟩).2 = false := by
  rw [stepFrame_fired]
  norm_num

/-- C5 witness: with `lastSoundTime = 0` and `now = 70000` ms the qualifying
frame does fire. -/
theorem alert_gate_condition_witness :
    (⟨true, true, 0, 0⟩ : DetectorState).lastSoundTime = 0 ∧
    (stepFrame 0 true true 70000 ⟨true, true, 0, 0⟩).2 = true :=
  ⟨rfl, ((alert_gate_condition 0 true true 70000 ⟨true, true, 0, 0⟩ 0).2.2
    rfl).mpr ⟨rfl, rfl, by norm_num⟩⟩

/-- C6 (corrected): with the hard-coded 60 s cooldown and alerts enabled,
provided the first qualifying frame is itself past the cooldown, two
qualifying frames 30 s apart produce exactly one fire while two qualifying
frames 61 s apart produce two fires; moreover `lastSoundTime` is unchanged by
any non-firing frame, so committed-state transitions never reset the
cooldown clock. -/
theorem alert_cooldown_pairs (d : ℚ) (s : DetectorState) (t1 : ℚ)
    (hc : s.isMouthOpenState = true)
    (hcool : 60 ≤ (t1 - s.lastSoundTime) / 1000) :
    ((stepFrame d true true t1 s).2 = true ∧
      (stepFrame d true true (t1 + 30000)
        (stepFrame d true true t1 s).1).2 = false ∧
      (stepFrame d true true (t1 + 61000)
        (stepFrame d true true t1 s).1).2 = true ∧
      (stepFrame d true true t1 s).1.isMouthOpenState = true) ∧
    (∀ (d2 : ℚ) (en raw : Bool) (now : ℚ) (s2 : DetectorState),
      (stepFrame d2 en raw now s2).2 = false →
      (stepFrame d2 en raw now s2).1.lastSoundTime = s2.lastSoundTime) := by
  have hb1 : (s.isMouthOpenState && true &&
      decide (60 ≤ (t1 - s.lastSoundTime) / 1000)) = true := by
    rw [hc]
    simp [hcool]
  have h1 : stepFrame d true true t1 s =
      ({ debounceStep d true t1 s with lastSoundTime := t1 }, true) :=
    stepFrame_fire d true true t1 s hb1
  have hdeb : debounceStep d true t1 s =
      { s with pendingState := true, lastStateChangeTime := t1 } :=
    debounceStep_agree d true t1 s hc.symm
  have hs1c : (stepFrame d true true t1 s).1.isMouthOpenState = true := by
    rw [h1]
    show (debounceStep d true t1 s).isMouthOpenState = true
    rw [hdeb]
    exact hc
  have hs1ls : (stepFrame d true true t1 s).1.lastSoundTime = t1 := by
    rw [h1]
  constructor
  · refine ⟨by rw [h1], ?_, ?_, hs1c⟩
    · rw [stepFrame_fired, hs1c, hs1ls]
      norm_num
    · rw [stepFrame_fired, hs1c, hs1ls]
      norm_num
  · intro d2 en raw now s2 hno
    cases hb : (s2.isMouthOpenState && en &&
        decide (60 ≤ (now - s2.lastSoundTime) / 1000)) with
    | true =>
        rw [stepFrame_fire d2 en raw now s2 hb] at hno
        exact absurd hno (by simp)
    | false =>
        rw [stepFrame_nofire d2 en raw now s2 hb]
        exact debounceStep_lastSound d2 raw now s2

/-- C6 counterexample: two qualifying frames 30 s apart (at 10 s and 40 s,
with the never-fired sentinel `lastSoundTime = 0`) produce zero fires, not
exactly one: neither frame has 60 s of wall clock behind it. -/
theorem alert_pair_thirty_seconds_zero_fires :
    (stepFrame 0 true true 10000 ⟨true, true, 0, 0⟩).2 = false ∧
    (stepFrame 0 true true 40000
      (stepFrame 0 true true 10000 ⟨true, true, 0, 0⟩).1).2 = false ∧
    (stepFrame 0 true true 40000
      (stepFrame 0 true true 10000 ⟨true, true, 0, 0⟩).1).1.isMouthOpenState =
      true := by
  have h1 : stepFrame 0 true true 10000 (⟨true, true, 0, 0⟩ : DetectorState) =
      (⟨true, true, 10000, 0⟩, false) := by
    rw [stepFrame_nofire 0 true true 10000 ⟨true, true, 0, 0⟩ (by norm_num),
      debounceStep_agree 0 true 10000 ⟨true, true, 0, 0⟩ rfl]
  rw [h1]
  refine ⟨rfl, ?_, ?_⟩
  · rw [stepFrame_fired]
    norm_num
  · have h2 : stepFrame 0 true true 40000
        (⟨true, true, 10000, 0⟩ : DetectorState) =
        (⟨true, true, 40000, 0⟩, false) := by
      rw [stepFrame_nofire 0 true true 40000 ⟨true, true, 10000, 0⟩
        (by norm_num),
        debounceStep_agree 0 true 40000 ⟨true, true, 10000, 0⟩ rfl]
    rw [h2]

/-- C6 witness: from a qualifying state past the cooldown (`t1 = 60000` ms,
`lastSoundTime = 0`), the first frame fires and the frame 30 s later does
not. -/
theorem alert_cooldown_pairs_witness :
    ((⟨true, true, 0, 0⟩ : DetectorState).isMouthOpenState = true ∧
      (60 : ℚ) ≤ (60000 - (⟨true, true, 0, 0⟩ : DetectorState).lastSoundTime) /
        1000) ∧
    (stepFrame 0 true true 60000 ⟨true, true, 0, 0⟩).2 = true ∧
    (stepFrame 0 true true (60000 + 30000)
      (stepFrame 0 true true 60000 ⟨true, true, 0, 0⟩).1).2 = false :=
  ⟨⟨rfl, by norm_num⟩,
    (alert_cooldown_pairs 0 ⟨true, true, 0, 0⟩ 60000 rfl (by norm_num)).1.1,
    (alert_cooldown_pairs 0 ⟨true, true, 0, 0⟩ 60000 rfl (by norm_num)).1.2.1⟩

/-! ## Facts about the geometric classifier -/

theorem calculateDistance_self (p : Point3D) : calculateDistance p p = 0 := by
  unfold calculateDistance
  simp

theorem isMouthOpen_some (lm : LandmarkFrame) (t : ℝ) :
    isMouthOpen (some lm) t =
      match lm 13, lm 14, lm 10, lm 152 with
      | some a, some b, some f, some c =>
        if calculateDistance f c = 0 then false
        else if calculateDistance a b / calculateDistance f c > t then true
        else false
      | _, _, _, _ => false := rfl

/-- C7 (confirmed): a wholly absent frame and every frame missing any of the
four required landmarks (13 upper-lip-bottom, 14 lower-lip-top, 10 forehead,
152 chin) classify as `false` — the classifier fails closed. -/
theorem classify_missing_landmarks_false (t : ℝ) :
    isMouthOpen none t = false ∧
    ∀ lm : LandmarkFrame,
      (lm 13 = none ∨ lm 14 = none ∨ lm 10 = none ∨ lm 152 = none) →
      isMouthOpen (some lm) t = false := by
  refine ⟨rfl, fun lm h => ?_⟩
  rw [isMouthOpen_some]
  rcases h13 : lm 13 with _ | p13 <;> rcases h14 : lm 14 with _ | p14 <;>
    rcases h10 : lm 10 with _ | p10 <;> rcases h152 : lm 152 with _ | p152 <;>
    simp_all

/-- C7 witness: the empty frame is missing landmark 13 and classifies as
closed. -/
theorem classify_missing_landmarks_false_witness :
    lmNone 13 = none ∧ isMouthOpen (some lmNone) 0 = false :=
  ⟨rfl, (classify_missing_landmarks_false 0).2 lmNone (Or.inl rfl)⟩

/-- C8 (confirmed): when the forehead and chin reference points coincide the
face span is `0` and the classifier returns `false` regardless of the mouth
gap, so the ratio `mouthDistance / faceHeight` is only ever formed behind the
`faceHeight = 0` guard. -/
theorem classify_zero_span_false (t : ℝ) (lm : LandmarkFrame)
    (a b p : Point3D) (h13 : lm 13 = some a) (h14 : lm 14 = some b)
    (h10 : lm 10 = some p) (h152 : lm 152 = some p) :
    isMouthOpen (some lm) t = false := by
  rw [isMouthOpen_some, h13, h14, h10, h152]
  show (if calculateDistance p p = 0 then false
    else if calculateDistance a b / calculateDistance p p > t then true
    else false) = false
  rw [if_pos (calculateDistance_self p)]

/-- C8 witness: a concrete frame whose forehead and chin are both `(2,3,4)`
classifies as closed even with a non-zero mouth gap. -/
theorem classify_zero_span_false_witness :
    (lmDegenerate 10 = some ⟨2, 3, 4⟩ ∧ lmDegenerate 152 = some ⟨2, 3, 4⟩) ∧
    isMouthOpen (some lmDegenerate) 0 = false :=
  ⟨⟨rfl, rfl⟩,
    classify_zero_span_false 0 lmDegenerate ⟨0, 0, 0⟩ ⟨0, 1, 0⟩ ⟨2, 3, 4⟩
      rfl rfl rfl rfl⟩

/-- C9 (confirmed): on a complete frame with non-zero face span the
classifier returns `true` iff `mouthGap / faceSpan` is strictly greater than
the threshold (both gaps being the Euclidean `calculateDistance` of the
corresponding landmark pairs); a ratio exactly equal to the threshold gives
`false`. -/
theorem classify_ratio_threshold (t : ℝ) (lm : LandmarkFrame)
    (a b f c : Point3D) (h13 : lm 13 = some a) (h14 : lm 14 = some b)
    (h10 : lm 10 = some f) (h152 : lm 152 = some c)
    (hspan : calculateDistance f c ≠ 0) :
    (isMouthOpen (some lm) t = true ↔
      calculateDistance a b / calculateDistance f c > t) ∧
    (calculateDistance a b / calculateDistance f c = t →
      isMouthOpen (some lm) t = false) := by
  have hmain : isMouthOpen (some lm) t = true ↔
      calculateDistance a b / calculateDistance f c > t := by
    rw [isMouthOpen_some, h13, h14, h10, h152]
    show (if calculateDistance f c = 0 then false
      else if calculateDistance a b / calculateDistance f c > t then true
      else false) = true ↔
      calculateDistance a b / calculateDistance f c > t
    rw [if_neg hspan]
    by_cases hgt : calculateDistance a b / calculateDistance f c > t <;>
      simp [hgt]
  refine ⟨hmain, fun heq => ?_⟩
  rw [Bool.eq_false_iff]
  intro htrue
  exact absurd (hmain.mp htrue) (by rw [heq]; exact lt_irrefl t)

/-- C9 witness: a frame with mouth gap `0` and face span `1` satisfies the
hypotheses, and the classifier agrees with the strict ratio comparison. -/
theorem classify_ratio_threshold_witness :
    calculateDistance ⟨0, 0, 0⟩ ⟨0, 1, 0⟩ ≠ 0 ∧
    (isMouthOpen (some lmClosed) 0.05 = true ↔
      calculateDistance ⟨0, 0, 0⟩ ⟨0, 0, 0⟩ /
        calculateDistance ⟨0, 0, 0⟩ ⟨0, 1, 0⟩ > 0.05) := by
  have hspan : calculateDistance ⟨0, 0, 0⟩ ⟨0, 1, 0⟩ ≠ (0 : ℝ) := by
    unfold calculateDistance
    norm_num
  exact ⟨hspan,
    (classify_ratio_threshold 0.05 lmClosed ⟨0, 0, 0⟩ ⟨0, 0, 0⟩ ⟨0, 0, 0⟩
      ⟨0, 1, 0⟩ rfl rfl rfl rfl hspan).1⟩

/-- C10 (confirmed): the classifier reads only the landmarks at indices 13,
14, 10 and 152 — two frames agreeing at those four indices classify
identically for every threshold. -/
theorem classify_reads_only_four_indices (t : ℝ) (lm1 lm2 : LandmarkFrame)
    (h13 : lm1 13 = lm2 13) (h14 : lm1 14 = lm2 14)
    (h10 : lm1 10 = lm2 10) (h152 : lm1 152 = lm2 152) :
    isMouthOpen (some lm1) t = isMouthOpen (some lm2) t := by
  rw [isMouthOpen_some, isMouthOpen_some, h13, h14, h10, h152]

/-- C10 witness: the empty frame and a frame defined only at index 0 agree at
the four read indices and classify identically. -/
theorem classify_reads_only_four_indices_witness :
    lmNone 13 = lmZero 13 ∧
    isMouthOpen (some lmNone) 0 = isMouthOpen (some lmZero) 0 :=
  ⟨rfl, classify_reads_only_four_indices 0 lmNone lmZero rfl rfl rfl rfl⟩

/-! ## The end-to-end scenario -/

theorem onResults_some (th : ℝ) (d : ℚ) (en : Bool) (lm : LandmarkFrame)
    (now : ℚ) (s : DetectorState) :
    onResults th d en (some lm) now s =
      stepFrame d en (isMouthOpen (some lm) th) now s := rfl

theorem isMouthOpen_lmOpen : isMouthOpen (some lmOpen) 0.05 = true := by
  have hmouth : calculateDistance ⟨0, 0, 0⟩ ⟨0, 0.08, 0⟩ = 0.08 := by
    show Real.sqrt (((0 : ℝ) - 0) ^ 2 + ((0 : ℝ) - 0.08) ^ 2 +
      ((0 : ℝ) - 0) ^ 2) = 0.08
    rw [show ((0 : ℝ) - 0) ^ 2 + ((0 : ℝ) - 0.08) ^ 2 + ((0 : ℝ) - 0) ^ 2 =
      (0.08 : ℝ) ^ 2 by norm_num]
    exact Real.sqrt_sq (by norm_num)
  have hface : calculateDistance ⟨0, 0, 0⟩ ⟨0, 1, 0⟩ = 1 := by
    show Real.sqrt (((0 : ℝ) - 0) ^ 2 + ((0 : ℝ) - 1) ^ 2 +
      ((0 : ℝ) - 0) ^ 2) = 1
    rw [show ((0 : ℝ) - 0) ^ 2 + ((0 : ℝ) - 1) ^ 2 + ((0 : ℝ) - 0) ^ 2 =
      (1 : ℝ) ^ 2 by norm_num]
    exact Real.sqrt_sq (by norm_num)
  rw [isMouthOpen_some]
  show (if calculateDistance ⟨0, 0, 0⟩ ⟨0, 1, 0⟩ = 0 then false
    else if calculateDistance ⟨0, 0, 0⟩ ⟨0, 0.08, 0⟩ /
      calculateDistance ⟨0, 0, 0⟩ ⟨0, 1, 0⟩ > 0.05 then true
    else false) = true
  rw [hmouth, hface, if_neg (by norm_num : ¬(1 : ℝ) = 0),
    if_pos (by norm_num : (0.08 : ℝ) / 1 > 0.05)]

/-- C2 counterexample: in the end-to-end scenario (landmarks with ratio 0.08,
threshold 0.05, delay 0, cooldown 60 s, alerts enabled, initial state) the
very first frame neither commits `true` nor fires: the first differing frame
only stages the pending value, and the alert reads the pre-update committed
state — contradicting "committedState becomes true on frame 1 and the alert
fires on frame 1". -/
theorem pipeline_frame1_no_fire :
    isMouthOpen (some lmOpen) 0.05 = true ∧
    (onResults 0.05 0 true (some lmOpen) 100000
      (initialState 0)).1.isMouthOpenState = false ∧
    (onResults 0.05 0 true (some lmOpen) 100000 (initialState 0)).2 =
      false := by
  have hstep : stepFrame 0 true true 100000 (initialState 0) =
      ((⟨false, true, 100000, 0⟩ : DetectorState), false) := by
    rw [stepFrame_nofire 0 true true 100000 (initialState 0) rfl,
      debounceStep_newPending 0 true 100000 (initialState 0) (by decide)
        (by decide)]
    rfl
  rw [onResults_some, isMouthOpen_lmOpen, hstep]
  exact ⟨rfl, rfl, rfl⟩

/-- C2 (corrected): the debounce commit is computed first, but the alert
decision reads the committed state captured before this frame's update (a
React state update is visible only from the next frame), and with delay 0 the
first differing frame only stages the pending value.  In the scenario (ratio
0.08 > threshold 0.05, delay 0, cooldown 60 s, alerts enabled): frame 1
leaves the committed state `false` and does not fire; the identical frame
10 s later commits `true` but still does not fire; a further identical frame
(here at 120 s, past the 60 s cooldown measured from the 0 sentinel) fires. -/
theorem pipeline_pre_update_alert :
    isMouthOpen (some lmOpen) 0.05 = true ∧
    onResults 0.05 0 true (some lmOpen) 100000 (initialState 0) =
      (⟨false, true, 100000, 0⟩, false) ∧
    onResults 0.05 0 true (some lmOpen) 110000 ⟨false, true, 100000, 0⟩ =
      (⟨true, true, 100000, 0⟩, false) ∧
    onResults 0.05 0 true (some lmOpen) 120000 ⟨true, true, 100000, 0⟩ =
      (⟨true, true, 120000, 120000⟩, true) := by
  refine ⟨isMouthOpen_lmOpen, ?_, ?_, ?_⟩
  · rw [onResults_some, isMouthOpen_lmOpen,
      stepFrame_nofire 0 true true 100000 (initialState 0) rfl,
      debounceStep_newPending 0 true 100000 (initialState 0) (by decide)
        (by decide)]
    rfl
  · rw [onResults_some, isMouthOpen_lmOpen,
      stepFrame_nofire 0 true true 110000 ⟨false, true, 100000, 0⟩ rfl,
      debounceStep_commit 0 true 110000 ⟨false, true, 100000, 0⟩ (by decide)
        (by decide) (by norm_num)]
  · rw [onResults_some, isMouthOpen_lmOpen,
      stepFrame_fire 0 true true 120000 ⟨true, true, 100000, 0⟩
        (by norm_num),
      debounceStep_agree 0 true 120000 ⟨true, true, 100000, 0⟩ (by decide)]

end Detector
